import Mathlib

/-!
Verification of the resilient request dispatcher of the Flux image-generation
app (`src/app.py`) against its natural-language specification.

The embedding models:
* `should_retry` — the keyword classification inside `generate_images_with_retry`
  (app.py lines 575-582);
* `generate_images_with_retry` — the retry loop (app.py lines 559-594), with the
  external generation capability injected as `gen : GenerationParams → Nat →
  Except String α` (its behaviour may differ per attempt index) and the random
  jitter `random.uniform(0, 1)` injected as `jitter : Nat → ℚ`.  Besides the
  Python return value `(success_flag, payload)` the embedding records a trace:
  the parameters of every invocation of the capability, the delays slept
  (deterministic part `base_delay * 2 ^ attempt` paired with the jitter drawn),
  and whether the post-loop fall-through return was taken;
* `validate_api_key` — the error-message classification chain of
  `validate_api_key` (app.py lines 96-118), with the outcome of the
  `models.list()` call injected;
* `add_to_history` — the bounded session history append (app.py lines 619-633).
-/

namespace FluxApp

/-- Python's substring test `pat in s`, on explicit character lists:
`charsStartWith pat l` holds when `pat` is an initial segment of `l`. -/
def charsStartWith : List Char → List Char → Bool
  | [], _ => true
  | _ :: _, [] => false
  | a :: as, b :: bs => a == b && charsStartWith as bs

/-- `charsHave pat l` holds when `pat` occurs contiguously inside `l`. -/
def charsHave (pat : List Char) : List Char → Bool
  | [] => pat.isEmpty
  | c :: cs => charsStartWith pat (c :: cs) || charsHave pat cs

/-- Python `pat in s` on strings (case-sensitive substring containment). -/
def strContains (s pat : String) : Bool :=
  charsHave pat.toList s.toList

/-- Python `s.lower()` (the error messages involved are ASCII, so per-character
lower-casing is the whole behaviour). -/
def strToLower (s : String) : String :=
  String.mk (s.data.map Char.toLower)

/-- `max_retries = 3` (app.py line 561). -/
def max_retries : Nat := 3

/-- `base_delay = 2` (app.py line 562). -/
def base_delay : Nat := 2

/-- The `should_retry` computation of `generate_images_with_retry`
(app.py lines 576-582): an if/elif chain over keyword substrings. -/
def should_retry (error_msg : String) : Bool :=
  if strContains error_msg "500" || strContains error_msg "502"
      || strContains error_msg "503" then
    true
  else if strContains error_msg "429" then
    true
  else if strContains (strToLower error_msg) "timeout" then
    true
  else
    false

/-- The keyword arguments passed to `client.images.generate(**params)`
(the `generation_params` dict built at app.py lines 1045-1050). -/
structure GenerationParams where
  model : String
  prompt : String
  n : Nat
  size : String
deriving DecidableEq, Repr

/-- Execution trace of one call of `generate_images_with_retry`. -/
structure RetryTrace where
  /-- The parameters of each invocation of the generation capability, in order. -/
  calls : List GenerationParams
  /-- Each backoff slept before a retry: deterministic part
  `base_delay * 2 ^ attempt` paired with the jitter `random.uniform(0, 1)` drawn. -/
  delays : List (ℚ × ℚ)
  /-- Whether the post-loop return `(False, "所有重試均失敗")` (app.py line 594)
  was taken. -/
  exhaustedFallback : Bool
deriving DecidableEq, Repr

/-- Result of the embedded dispatcher: the Python return value
`(success_flag, payload)` plus the execution trace. -/
structure DispatchResult (α : Type) where
  ret : Bool × (α ⊕ String)
  trace : RetryTrace
deriving DecidableEq, Repr

/-- The body of the `for attempt in range(max_retries)` loop of
`generate_images_with_retry` (app.py lines 564-594), run over the list of
remaining attempt indices.  The empty-list case is the fall-through return
after the loop (line 594). -/
def retryAttempts {α : Type} (gen : GenerationParams → Nat → Except String α)
    (jitter : Nat → ℚ) (params : GenerationParams) :
    List Nat → DispatchResult α
  | [] => ⟨(false, Sum.inr "所有重試均失敗"), ⟨[], [], true⟩⟩
  | attempt :: rest =>
    match gen params attempt with
    | Except.ok response => ⟨(true, Sum.inl response), ⟨[params], [], false⟩⟩
    | Except.error e =>
      let error_msg := e
      if attempt < max_retries - 1 then
        if should_retry error_msg then
          let next := retryAttempts gen jitter params rest
          ⟨next.ret,
            ⟨params :: next.trace.calls,
              ((base_delay : ℚ) * 2 ^ attempt, jitter attempt) :: next.trace.delays,
              next.trace.exhaustedFallback⟩⟩
        else
          ⟨(false, Sum.inr error_msg), ⟨[params], [], false⟩⟩
      else
        ⟨(false, Sum.inr error_msg), ⟨[params], [], false⟩⟩

/-- `generate_images_with_retry` (app.py lines 559-594): the retry loop run on
attempt indices `range(max_retries)`. -/
def generate_images_with_retry {α : Type}
    (gen : GenerationParams → Nat → Except String α)
    (jitter : Nat → ℚ) (params : GenerationParams) : DispatchResult α :=
  retryAttempts gen jitter params (List.range max_retries)

/-- `validate_api_key` (app.py lines 96-118): the outcome of the
`test_client.models.list()` probe is injected; the `except` branch classifies
the error message by an ordered if/elif chain. -/
def validate_api_key (listResult : Except String Unit) : Bool × String :=
  match listResult with
  | Except.ok _ => (true, "API 密鑰驗證成功")
  | Except.error e =>
    let error_msg := e
    if strContains error_msg "401" || strContains error_msg "Unauthorized" then
      (false, "API 密鑰無效或已過期")
    else if strContains error_msg "403" || strContains error_msg "Forbidden" then
      (false, "API 密鑰沒有足夠權限")
    else if strContains error_msg "404" then
      (false, "API 端點不存在或不正確")
    else if strContains (strToLower error_msg) "timeout" then
      (false, "API 連接超時")
    else
      (false, "API 驗證失敗: " ++ error_msg.take 100)

/-- One entry of `st.session_state.generation_history` (the `history_item`
dict built in `add_to_history`, app.py lines 621-628); the wall-clock
timestamp is injected as a number. -/
structure HistoryItem (μ : Type) where
  timestamp : Nat
  prompt : String
  model : String
  images : List String
  metadata : μ
  id : Nat
deriving DecidableEq, Repr

/-- `add_to_history` (app.py lines 619-633): insert the new record at the
front, then truncate to the first 50 entries when the bound is exceeded. -/
def add_to_history {μ : Type} (tstamp : Nat) (prompt model : String)
    (images : List String) (metadata : μ)
    (history : List (HistoryItem μ)) : List (HistoryItem μ) :=
  let history_item : HistoryItem μ :=
    ⟨tstamp, prompt, model, images, metadata, history.length⟩
  let h := history_item :: history
  if h.length > 50 then h.take 50 else h

/-- The size options offered by the UI (app.py lines 898-904). -/
def size_options : List String :=
  ["1024x1024", "1152x896", "896x1152", "1344x768", "768x1344"]

/-- Follows the spec's words only (§4.2 precondition checks): a request is
valid when the prompt is non-empty and at most 4000 characters, the count is
in `[1, 4]` and the size is one of the enumerated options.  No such predicate
exists in the source: `generate_images_with_retry` performs no validation. -/
def specValidRequest (p : GenerationParams) : Bool :=
  !p.prompt.isEmpty && decide (p.prompt.length ≤ 4000)
    && decide (1 ≤ p.n) && decide (p.n ≤ 4) && size_options.contains p.size

/-! ### Helper lemmas about the retry loop -/

/-- The loop makes at most one invocation per remaining attempt index. -/
theorem retryAttempts_calls_length_le {α : Type}
    (gen : GenerationParams → Nat → Except String α) (jitter : Nat → ℚ)
    (params : GenerationParams) :
    ∀ l : List Nat,
      ((retryAttempts gen jitter params l).trace.calls).length ≤ l.length := by
  intro l
  induction l with
  | nil => simp [retryAttempts]
  | cons a rest ih =>
    cases hg : gen params a with
    | ok r => simp [retryAttempts, hg]
    | error e =>
      by_cases ha : a < max_retries - 1
      · by_cases hr : should_retry e = true
        · simp only [retryAttempts, hg, ha, hr, if_true, List.length_cons]
          exact Nat.succ_le_succ ih
        · simp [retryAttempts, hg, ha, hr]
      · simp [retryAttempts, hg, ha]

/-- The boolean tag of the returned pair always agrees with the payload
variant: `true` with a response, `false` with an error string. -/
theorem retryAttempts_ret_tagged {α : Type}
    (gen : GenerationParams → Nat → Except String α) (jitter : Nat → ℚ)
    (params : GenerationParams) :
    ∀ l : List Nat,
      ((retryAttempts gen jitter params l).ret.1 = true ∧
        ∃ r, (retryAttempts gen jitter params l).ret.2 = Sum.inl r) ∨
      ((retryAttempts gen jitter params l).ret.1 = false ∧
        ∃ s, (retryAttempts gen jitter params l).ret.2 = Sum.inr s) := by
  intro l
  induction l with
  | nil => right; simp [retryAttempts]
  | cons a rest ih =>
    cases hg : gen params a with
    | ok r => left; simp [retryAttempts, hg]
    | error e =>
      by_cases ha : a < max_retries - 1
      · by_cases hr : should_retry e = true
        · simpa only [retryAttempts, hg, ha, hr, if_true] using ih
        · right; simp [retryAttempts, hg, ha, hr]
      · right; simp [retryAttempts, hg, ha]

/-- Every invocation of the generation capability receives exactly the
caller-supplied parameters: the loop never mutates them. -/
theorem retryAttempts_calls_const {α : Type}
    (gen : GenerationParams → Nat → Except String α) (jitter : Nat → ℚ)
    (params : GenerationParams) :
    ∀ l : List Nat, ∀ q ∈ (retryAttempts gen jitter params l).trace.calls,
      q = params := by
  intro l
  induction l with
  | nil => simp [retryAttempts]
  | cons a rest ih =>
    intro q hq
    cases hg : gen params a with
    | ok r =>
      simp only [retryAttempts, hg] at hq
      simpa using hq
    | error e =>
      by_cases ha : a < max_retries - 1
      · by_cases hr : should_retry e = true
        · simp only [retryAttempts, hg, ha, hr, if_true, List.mem_cons] at hq
          rcases hq with hq | hq
          · exact hq
          · exact ih q hq
        · simp only [retryAttempts, hg, ha, hr] at hq
          simpa using hq
      · simp only [retryAttempts, hg, ha] at hq
        simpa using hq

/-- If the first attempt fails with a message matching no retry keyword, the
dispatcher returns that error at once: one invocation, no delay. -/
theorem dispatch_first_failure_not_retried {α : Type}
    (gen : GenerationParams → Nat → Except String α) (jitter : Nat → ℚ)
    (params : GenerationParams) (msg : String)
    (h0 : gen params 0 = Except.error msg)
    (hnr : should_retry msg = false) :
    generate_images_with_retry gen jitter params =
      ⟨(false, Sum.inr msg), ⟨[params], [], false⟩⟩ := by
  have hrange : List.range max_retries = [0, 1, 2] := rfl
  unfold generate_images_with_retry
  rw [hrange]
  simp [retryAttempts, h0, hnr, max_retries]

/-- If all three attempts fail and the first two failures match a retry
keyword, the dispatcher exhausts its budget: three invocations, two backoffs
of deterministic parts `base_delay * 2 ^ 0` and `base_delay * 2 ^ 1`, and the
last error is returned. -/
theorem dispatch_all_failures_retryable {α : Type}
    (gen : GenerationParams → Nat → Except String α) (jitter : Nat → ℚ)
    (params : GenerationParams) (m0 m1 m2 : String)
    (h0 : gen params 0 = Except.error m0)
    (h1 : gen params 1 = Except.error m1)
    (h2 : gen params 2 = Except.error m2)
    (hr0 : should_retry m0 = true) (hr1 : should_retry m1 = true) :
    generate_images_with_retry gen jitter params =
      ⟨(false, Sum.inr m2),
        ⟨[params, params, params],
          [((base_delay : ℚ) * 2 ^ 0, jitter 0),
            ((base_delay : ℚ) * 2 ^ 1, jitter 1)], false⟩⟩ := by
  have hrange : List.range max_retries = [0, 1, 2] := rfl
  unfold generate_images_with_retry
  rw [hrange]
  simp [retryAttempts, h0, h1, h2, hr0, hr1, max_retries]

/-- A message containing `"500"` matches the first retry rule. -/
theorem should_retry_of_500 {msg : String}
    (h : strContains msg "500" = true) : should_retry msg = true := by
  simp [should_retry, h]

/-- A message whose lower-casing contains `"timeout"` is retried, whatever
the earlier rules say: every branch of the chain reached from it yields
`true`. -/
theorem should_retry_of_timeout {msg : String}
    (h : strContains (strToLower msg) "timeout" = true) :
    should_retry msg = true := by
  unfold should_retry
  split_ifs <;> simp_all

/-! ### Concrete inputs used by witnesses and counterexamples -/

/-- A well-formed generation request. -/
def p1 : GenerationParams :=
  ⟨"flux.1-schnell", "A cute cat wearing a wizard hat", 1, "1024x1024"⟩

/-- A request for a model with alternatives in `FLUX_MODELS`. -/
def p2 : GenerationParams :=
  ⟨"flux.1.1-pro", "A cute cat wearing a wizard hat", 1, "1024x1024"⟩

/-- A request with an empty prompt (invalid per the spec's validation rules). -/
def pEmpty : GenerationParams := ⟨"flux.1-schnell", "", 1, "1024x1024"⟩

/-- A fixed jitter draw for concrete runs. -/
def j0 : Nat → ℚ := fun _ => 1 / 2

/-- A capability that always fails with an authentication error. -/
def gen401 : GenerationParams → Nat → Except String Unit :=
  fun _ _ => Except.error "401 Unauthorized: invalid api key"

/-- A capability that always fails with a provider fault. -/
def gen500 : GenerationParams → Nat → Except String Unit :=
  fun _ _ => Except.error "500 internal server error"

/-- A capability that always fails with a model-unavailable error. -/
def gen404 : GenerationParams → Nat → Except String Unit :=
  fun _ _ => Except.error "404 model not found"

/-- A capability that always fails with a parameter-rejection error. -/
def gen400 : GenerationParams → Nat → Except String Unit :=
  fun _ _ => Except.error "400 bad request: validation error"

/-- A capability that always fails with a message matching no keyword. -/
def genUnknown : GenerationParams → Nat → Except String Unit :=
  fun _ _ => Except.error "mysterious failure of unclassified origin"

/-- A message matching both the authentication keyword and the network
keyword. -/
def msgBoth : String := "401 Unauthorized: connection timeout"

/-- A capability that always fails with `msgBoth`. -/
def genBoth : GenerationParams → Nat → Except String Unit :=
  fun _ _ => Except.error msgBoth

/-- The model identifiers of the `FLUX_MODELS` table (app.py lines 48-94). -/
def FLUX_MODELS_ids : List String :=
  ["flux.1-schnell", "flux.1-krea-dev", "flux.1.1-pro",
    "flux.1-kontext-pro", "flux.1-kontext-max"]

/-! ### The claims -/

/-- C1: for every request and every behaviour of the injected generation
capability, a single call to `generate_images_with_retry` invokes the
capability at most 3 times. -/
theorem claim_C1_at_most_three_invocations {α : Type}
    (gen : GenerationParams → Nat → Except String α) (jitter : Nat → ℚ)
    (params : GenerationParams) :
    ((generate_images_with_retry gen jitter params).trace.calls).length ≤ 3 := by
  have h := retryAttempts_calls_length_le gen jitter params (List.range max_retries)
  simpa [generate_images_with_retry, max_retries] using h

/-- C2: whatever the capability does, the dispatcher returns a tagged
outcome — the boolean flag is `true` exactly when the payload is a response,
and `false` exactly when it is an error description. -/
theorem claim_C2_tagged_outcome {α : Type}
    (gen : GenerationParams → Nat → Except String α) (jitter : Nat → ℚ)
    (params : GenerationParams) :
    ((generate_images_with_retry gen jitter params).ret.1 = true ∧
      ∃ r, (generate_images_with_retry gen jitter params).ret.2 = Sum.inl r) ∨
    ((generate_images_with_retry gen jitter params).ret.1 = false ∧
      ∃ s, (generate_images_with_retry gen jitter params).ret.2 = Sum.inr s) := by
  exact retryAttempts_ret_tagged gen jitter params (List.range max_retries)

/-- C3: if the first attempt fails with a non-retryable authentication error
(e.g. a message containing `"401"` and no retry keyword), the dispatcher
returns Failure after exactly one attempt, with no retry and no delay. -/
theorem claim_C3_auth_immediate_failure {α : Type}
    (gen : GenerationParams → Nat → Except String α) (jitter : Nat → ℚ)
    (params : GenerationParams) (msg : String)
    (h0 : gen params 0 = Except.error msg)
    (_h401 : strContains msg "401" = true)
    (hnr : should_retry msg = false) :
    (generate_images_with_retry gen jitter params).ret = (false, Sum.inr msg) ∧
    (generate_images_with_retry gen jitter params).trace.calls = [params] ∧
    (generate_images_with_retry gen jitter params).trace.delays = [] := by
  rw [dispatch_first_failure_not_retried gen jitter params msg h0 hnr]
  exact ⟨rfl, rfl, rfl⟩

/-- Witness for C3 at a concrete authentication failure. -/
theorem claim_C3_witness :
    gen401 p1 0 = Except.error "401 Unauthorized: invalid api key" ∧
    strContains "401 Unauthorized: invalid api key" "401" = true ∧
    should_retry "401 Unauthorized: invalid api key" = false ∧
    ((generate_images_with_retry gen401 j0 p1).ret =
        (false, Sum.inr "401 Unauthorized: invalid api key") ∧
      (generate_images_with_retry gen401 j0 p1).trace.calls = [p1] ∧
      (generate_images_with_retry gen401 j0 p1).trace.delays = []) :=
  ⟨rfl, by decide, by decide,
    claim_C3_auth_immediate_failure gen401 j0 p1
      "401 Unauthorized: invalid api key" rfl (by decide) (by decide)⟩

/-- C4: if every attempt fails with a provider-fault error (message containing
`"500"`), the dispatcher returns Failure after exactly 3 attempts, and the
deterministic parts of the two backoff delays are `2` and `4` seconds —
strictly increasing in the attempt index, jitter ignored. -/
theorem claim_C4_provider_fault_three_attempts {α : Type}
    (gen : GenerationParams → Nat → Except String α) (jitter : Nat → ℚ)
    (params : GenerationParams) (m0 m1 m2 : String)
    (h0 : gen params 0 = Except.error m0)
    (h1 : gen params 1 = Except.error m1)
    (h2 : gen params 2 = Except.error m2)
    (hs0 : strContains m0 "500" = true)
    (hs1 : strContains m1 "500" = true)
    (_hs2 : strContains m2 "500" = true) :
    (generate_images_with_retry gen jitter params).ret = (false, Sum.inr m2) ∧
    ((generate_images_with_retry gen jitter params).trace.calls).length = 3 ∧
    ((generate_images_with_retry gen jitter params).trace.delays).map
        Prod.fst = [2, 4] ∧
    List.Chain' (· < ·)
      (((generate_images_with_retry gen jitter params).trace.delays).map
        Prod.fst) := by
  rw [dispatch_all_failures_retryable gen jitter params m0 m1 m2 h0 h1 h2
    (should_retry_of_500 hs0) (should_retry_of_500 hs1)]
  refine ⟨rfl, rfl, ?_, ?_⟩
  · norm_num [base_delay]
  · simp only [List.map_cons, List.map_nil, List.chain'_cons,
      List.chain'_singleton, and_true]
    norm_num [base_delay]

/-- Witness for C4: a capability failing with `"500 internal server error"`
on every attempt. -/
theorem claim_C4_witness :
    gen500 p1 0 = Except.error "500 internal server error" ∧
    strContains "500 internal server error" "500" = true ∧
    ((generate_images_with_retry gen500 j0 p1).ret =
        (false, Sum.inr "500 internal server error") ∧
      ((generate_images_with_retry gen500 j0 p1).trace.calls).length = 3 ∧
      ((generate_images_with_retry gen500 j0 p1).trace.delays).map
          Prod.fst = [2, 4] ∧
      List.Chain' (· < ·)
        (((generate_images_with_retry gen500 j0 p1).trace.delays).map
          Prod.fst)) :=
  ⟨rfl, by decide,
    claim_C4_provider_fault_three_attempts gen500 j0 p1 _ _ _ rfl rfl rfl
      (by decide) (by decide) (by decide)⟩

/-- C10: on every execution path the loop returns from inside one of its
iterations; the trailing fall-through return `(False, "所有重試均失敗")` after
the loop is unreachable. -/
theorem claim_C10_loop_always_returns {α : Type}
    (gen : GenerationParams → Nat → Except String α) (jitter : Nat → ℚ)
    (params : GenerationParams) :
    (generate_images_with_retry gen jitter params).trace.exhaustedFallback
      = false := by
  have hrange : List.range max_retries = [0, 1, 2] := rfl
  unfold generate_images_with_retry
  rw [hrange]
  cases h0 : gen params 0 with
  | ok r => simp [retryAttempts, h0]
  | error e0 =>
    by_cases hr0 : should_retry e0 = true
    · cases h1 : gen params 1 with
      | ok r => simp [retryAttempts, h0, h1, hr0, max_retries]
      | error e1 =>
        by_cases hr1 : should_retry e1 = true
        · cases h2 : gen params 2 with
          | ok r => simp [retryAttempts, h0, h1, h2, hr0, hr1, max_retries]
          | error e2 => simp [retryAttempts, h0, h1, h2, hr0, hr1, max_retries]
        · simp [retryAttempts, h0, h1, hr0, hr1, max_retries]
    · simp [retryAttempts, h0, hr0, max_retries]

/-- Counterexample to C5: a model-unavailable failure (`"404 model not
found"`) on attempt 1, with a different model available in the
`FLUX_MODELS` table, yet the dispatcher makes exactly one invocation — with
the original model — so no attempt 2 with a fallback model ever happens. -/
theorem claim_C5_counterexample :
    "flux.1-schnell" ∈ FLUX_MODELS_ids ∧
    "flux.1-schnell" ≠ p2.model ∧
    gen404 p2 0 = Except.error "404 model not found" ∧
    (generate_images_with_retry gen404 j0 p2).trace.calls = [p2] := by
  refine ⟨by decide, by decide, rfl, ?_⟩
  decide

/-- C5 amended: if attempt 1 fails with a model-unavailable error (a message
containing `"404"`, which matches no retry keyword), the dispatcher stops
after that single attempt and returns the error; no invocation ever uses a
model other than the caller-supplied one. -/
theorem claim_C5_no_fallback_model {α : Type}
    (gen : GenerationParams → Nat → Except String α) (jitter : Nat → ℚ)
    (params : GenerationParams) (msg : String)
    (h0 : gen params 0 = Except.error msg)
    (_h404 : strContains msg "404" = true)
    (hnr : should_retry msg = false) :
    (generate_images_with_retry gen jitter params).ret = (false, Sum.inr msg) ∧
    (generate_images_with_retry gen jitter params).trace.calls = [params] ∧
    ∀ q ∈ (generate_images_with_retry gen jitter params).trace.calls,
      q.model = params.model := by
  rw [dispatch_first_failure_not_retried gen jitter params msg h0 hnr]
  refine ⟨rfl, rfl, ?_⟩
  intro q hq
  simp only [List.mem_singleton] at hq
  rw [hq]

/-- Witness for the amended C5 at the concrete model-unavailable failure. -/
theorem claim_C5_witness :
    gen404 p2 0 = Except.error "404 model not found" ∧
    strContains "404 model not found" "404" = true ∧
    should_retry "404 model not found" = false ∧
    ((generate_images_with_retry gen404 j0 p2).ret =
        (false, Sum.inr "404 model not found") ∧
      (generate_images_with_retry gen404 j0 p2).trace.calls = [p2] ∧
      ∀ q ∈ (generate_images_with_retry gen404 j0 p2).trace.calls,
        q.model = p2.model) :=
  ⟨rfl, by decide, by decide,
    claim_C5_no_fallback_model gen404 j0 p2 "404 model not found" rfl
      (by decide) (by decide)⟩

/-- Counterexample to C6: a request with an empty prompt is invalid per the
spec's validation rules, yet the dispatcher invokes the generation capability
once — not zero times — because it performs no parameter validation. -/
theorem claim_C6_counterexample :
    specValidRequest pEmpty = false ∧
    ((generate_images_with_retry gen400 j0 pEmpty).trace.calls).length = 1 := by
  constructor
  · decide
  · decide

/-- C6 amended: the dispatcher performs no parameter validation — for every
request, valid or not, the generation capability is invoked at least once. -/
theorem claim_C6_no_validation {α : Type}
    (gen : GenerationParams → Nat → Except String α) (jitter : Nat → ℚ)
    (params : GenerationParams) :
    1 ≤ ((generate_images_with_retry gen jitter params).trace.calls).length := by
  have hrange : List.range max_retries = [0, 1, 2] := rfl
  unfold generate_images_with_retry
  rw [hrange]
  cases h0 : gen params 0 with
  | ok r => simp [retryAttempts, h0]
  | error e0 =>
    by_cases hr0 : should_retry e0 = true
    · simp [retryAttempts, h0, hr0, max_retries]
    · simp [retryAttempts, h0, hr0, max_retries]

/-- Counterexample to C7: a failure message matching no classification
keyword is not retried — the dispatcher aborts after one invocation with no
delay, although two attempts of the budget remain. -/
theorem claim_C7_counterexample :
    should_retry "mysterious failure of unclassified origin" = false ∧
    ((generate_images_with_retry genUnknown j0 p1).trace.calls).length = 1 ∧
    (generate_images_with_retry genUnknown j0 p1).trace.delays = [] := by
  refine ⟨by decide, ?_, ?_⟩ <;> decide

/-- C7 amended: a first-attempt failure whose message matches no retry
keyword (`"500"`, `"502"`, `"503"`, `"429"`, `"timeout"`) is treated as
non-retryable: the dispatcher returns Failure at once, after exactly one
invocation and with no backoff delay, even though attempts remain. -/
theorem claim_C7_unknown_not_retried {α : Type}
    (gen : GenerationParams → Nat → Except String α) (jitter : Nat → ℚ)
    (params : GenerationParams) (msg : String)
    (h0 : gen params 0 = Except.error msg)
    (hnr : should_retry msg = false) :
    (generate_images_with_retry gen jitter params).ret = (false, Sum.inr msg) ∧
    ((generate_images_with_retry gen jitter params).trace.calls).length = 1 ∧
    (generate_images_with_retry gen jitter params).trace.delays = [] := by
  rw [dispatch_first_failure_not_retried gen jitter params msg h0 hnr]
  exact ⟨rfl, rfl, rfl⟩

/-- Witness for the amended C7 at the concrete unclassified failure. -/
theorem claim_C7_witness :
    genUnknown p1 0 =
        Except.error "mysterious failure of unclassified origin" ∧
    should_retry "mysterious failure of unclassified origin" = false ∧
    ((generate_images_with_retry genUnknown j0 p1).ret =
        (false, Sum.inr "mysterious failure of unclassified origin") ∧
      ((generate_images_with_retry genUnknown j0 p1).trace.calls).length = 1 ∧
      (generate_images_with_retry genUnknown j0 p1).trace.delays = []) :=
  ⟨rfl, by decide,
    claim_C7_unknown_not_retried genUnknown j0 p1
      "mysterious failure of unclassified origin" rfl (by decide)⟩

/-- Counterexample to C8: the message `"401 Unauthorized: connection
timeout"` matches both the authentication keyword and the network keyword,
and `validate_api_key` indeed classifies it by the earlier `401` rule — but
the dispatcher does NOT treat it as non-retryable: its keyword chain has no
authentication rule, the `timeout` keyword matches, and the failure is
retried until all 3 attempts are spent, instead of stopping after 1. -/
theorem claim_C8_counterexample :
    strContains msgBoth "401" = true ∧
    strContains (strToLower msgBoth) "timeout" = true ∧
    should_retry msgBoth = true ∧
    ((generate_images_with_retry genBoth j0 p1).trace.calls).length = 3 := by
  refine ⟨by decide, by decide, by decide, ?_⟩
  decide

/-- C8 amended: for a message containing both `"401"` and `"timeout"`, the
earlier-ordered rule of `validate_api_key` wins deterministically (the
authentication answer is returned); the retry dispatcher, however, has no
authentication rule — the message matches its retryable `timeout` keyword,
so a capability failing that way on every attempt is retried until the
3-attempt budget is exhausted rather than aborted after 1 attempt. -/
theorem claim_C8_rule_order {α : Type}
    (gen : GenerationParams → Nat → Except String α) (jitter : Nat → ℚ)
    (params : GenerationParams) (msg : String)
    (h401 : strContains msg "401" = true)
    (htm : strContains (strToLower msg) "timeout" = true)
    (h0 : gen params 0 = Except.error msg)
    (h1 : gen params 1 = Except.error msg)
    (h2 : gen params 2 = Except.error msg) :
    validate_api_key (Except.error msg) = (false, "API 密鑰無效或已過期") ∧
    should_retry msg = true ∧
    ((generate_images_with_retry gen jitter params).trace.calls).length = 3 := by
  have hsr := should_retry_of_timeout htm
  refine ⟨?_, hsr, ?_⟩
  · simp [validate_api_key, h401]
  · rw [dispatch_all_failures_retryable gen jitter params msg msg msg h0 h1 h2
      hsr hsr]
    rfl

/-- Witness for the amended C8 at the crafted double-keyword message. -/
theorem claim_C8_witness :
    strContains msgBoth "401" = true ∧
    strContains (strToLower msgBoth) "timeout" = true ∧
    (validate_api_key (Except.error msgBoth) =
        (false, "API 密鑰無效或已過期") ∧
      should_retry msgBoth = true ∧
      ((generate_images_with_retry genBoth j0 p1).trace.calls).length = 3) :=
  ⟨by decide, by decide,
    claim_C8_rule_order genBoth j0 p1 msgBoth (by decide) (by decide)
      rfl rfl rfl⟩

/-- C9: assuming the bound already holds, after every `add_to_history` the
log has at most 50 entries, the newest entry sits at the front (with `id`
equal to the previous length), and when the bound would be exceeded the
entry evicted is exactly the last one of the list — the earliest inserted. -/
theorem claim_C9_history_bounded {μ : Type} (tstamp : Nat) (pr mo : String)
    (im : List String) (md : μ) (history : List (HistoryItem μ))
    (hb : history.length ≤ 50) :
    (add_to_history tstamp pr mo im md history).length ≤ 50 ∧
    (add_to_history tstamp pr mo im md history).head? =
      some ⟨tstamp, pr, mo, im, md, history.length⟩ ∧
    (history.length = 50 →
      add_to_history tstamp pr mo im md history =
        ⟨tstamp, pr, mo, im, md, history.length⟩ :: history.dropLast) := by
  simp only [add_to_history]
  split_ifs with hl
  · have h50 : history.length = 50 := by
      simp only [List.length_cons] at hl
      omega
    have htake :
        ((⟨tstamp, pr, mo, im, md, history.length⟩ : HistoryItem μ)
            :: history).take 50 =
          (⟨tstamp, pr, mo, im, md, history.length⟩ : HistoryItem μ)
            :: history.take 49 := by
      rw [show (50 : Nat) = 49 + 1 from rfl, List.take_succ_cons]
    refine ⟨?_, ?_, ?_⟩
    · rw [htake]
      simp only [List.length_cons, List.length_take]
      omega
    · rw [htake]
      rfl
    · intro _
      rw [htake, List.dropLast_eq_take, h50]
  · have hlen : history.length + 1 ≤ 50 := by
      simp only [List.length_cons, not_lt] at hl
      exact hl
    refine ⟨by simpa using hlen, rfl, ?_⟩
    intro h50
    omega

/-- Witness for C9 at a full log of 50 entries: the oldest is evicted. -/
theorem claim_C9_witness :
    (List.replicate 50 (⟨0, "p", "m", [], (), 0⟩ : HistoryItem Unit)).length
        ≤ 50 ∧
    ((add_to_history 1 "q" "n" [] ()
          (List.replicate 50 (⟨0, "p", "m", [], (), 0⟩ : HistoryItem Unit))).length
        ≤ 50 ∧
      (add_to_history 1 "q" "n" [] ()
          (List.replicate 50 (⟨0, "p", "m", [], (), 0⟩ : HistoryItem Unit))).head? =
        some ⟨1, "q", "n", [], (),
          (List.replicate 50 (⟨0, "p", "m", [], (), 0⟩ : HistoryItem Unit)).length⟩ ∧
      ((List.replicate 50 (⟨0, "p", "m", [], (), 0⟩ : HistoryItem Unit)).length = 50 →
        add_to_history 1 "q" "n" [] ()
            (List.replicate 50 (⟨0, "p", "m", [], (), 0⟩ : HistoryItem Unit)) =
          ⟨1, "q", "n", [], (),
            (List.replicate 50 (⟨0, "p", "m", [], (), 0⟩ : HistoryItem Unit)).length⟩
            :: (List.replicate 50
                (⟨0, "p", "m", [], (), 0⟩ : HistoryItem Unit)).dropLast)) :=
  ⟨by decide,
    claim_C9_history_bounded 1 "q" "n" [] ()
      (List.replicate 50 (⟨0, "p", "m", [], (), 0⟩ : HistoryItem Unit))
      (by decide)⟩
